import Mathlib

/-!
# Verification of the anedya-go-sdk operation pipeline and error taxonomy

A shallow embedding of the SDK's error taxonomy (`errors/errors.go`), the
datapoint accessors (`dataAccess/datapoint_helpers.go`) and the per-resource
operation pipelines (validate, encode, build, transmit, read, decode,
classify) of the operations cited by the specification.

Modelling conventions:
* Go `error` values produced by the SDK are either a bare sentinel
  (`errors.New` package-level value) or an `*errors.AnedyaError` wrapping a
  sentinel with a message; both are captured by `SdkError`.
* Go `int`/`int64` fields are modelled as `Int` (the claims only compare and
  bound these fields, no overflow is involved).
* The HTTP layer is modelled by `TransportOutcome`: the injected transport
  either fails at `Do`, fails while the body is read, fails while the body is
  decoded, or yields a status code together with the decoded envelope.
  JSON marshalling of the plain request records (strings, ints, slices)
  cannot fail in Go, and building a POST request from a well-formed base URL
  cannot fail either, so those two error branches of the source are dead and
  the model starts the transport interaction directly after validation.
* Each operation returns an `OpOutcome`: the Go pair (result, error), the
  number of times `httpClient.Do` was invoked, and the final state of the
  caller-supplied request record (Go passes the request by pointer, so an
  operation that writes through the pointer changes the caller's record).
-/

namespace Anedya

/-- The sentinel errors of the `errors` package (`errors.New` package-level
variables), one constructor per distinct Go variable referenced by the
operations and the reason-code registry. -/
inductive Sentinel where
  | ErrInputRequired
  | ErrRequestEncodeFailed
  | ErrRequestBuildFailed
  | ErrRequestFailed
  | ErrResponseReadFailed
  | ErrResponseDecodeFailed
  | ErrUnauthorized
  | ErrUnknown
  | ErrInvalidInput
  | ErrNodeDeviceIDExists
  | ErrNodeChildExists
  | ErrNodeUniqueAliasViolation
  | ErrNodeUniqueChildViolation
  | ErrNodeChildNotFound
  | ErrNodeInvalidParentID
  | ErrNodeInvalidChildID
  | ErrNodeNotFound
  | ErrNodeDeviceNotFound
  | ErrNodeInvalidUUID
  | ErrInvalidOrder
  | ErrVariableNotFound
  | ErrInvalidNodeID
  | ErrInvalidTimeRange
  | ErrVariableNameRequired
  | ErrVariableRequired
  | ErrVariableTypeRequired
  | ErrHealthLimitExceeded
  | ErrInvalidAggregationMethod
  | ErrAggregationMethodRequired
  | ErrInvalidIntervalMeasure
  | ErrInvalidInterval
  | ErrInvalidTimezone
  | ErrInvalidFilterType
  | ErrExpiryRequried
  | ErrInvalidToken
  | ErrInvalidExpiry
  | ErrInvalidCommandType
  | ErrCommandNotFound
  | ErrInvalidFilter
  | ErrInvalidCommandID
  | ErrInvalidNamespaceScope
  | ErrInvalidValueType
  | ErrKeyNotFound
  | ErrNodeListRequestNil
  | ErrNodeListInvalidLimit
  | ErrNodeListInvalidOrder
  | ErrListChildNodesRequestNil
  | ErrListChildNodesParentIDRequired
  | ErrRequestNil
  | ErrInvalidLimit
  | ErrInvalidOffset
  | ErrNodesEmpty
  | ErrInvalidNode
  | ErrAggregationComputeRequired
  | ErrFilterNodesRequired
  deriving DecidableEq, Repr

/-- A Go `error` value surfaced by the SDK: either a bare sentinel or an
`*errors.AnedyaError{Message, Err}` wrapping a sentinel with a message. -/
inductive SdkError where
  | sentinel (e : Sentinel)
  | anedya (message : String) (err : Sentinel)
  deriving DecidableEq, Repr

/-- The sentinel carried by an `SdkError` (what `errors.Is` compares). -/
def SdkError.kind : SdkError → Sentinel
  | .sentinel e => e
  | .anedya _ e => e

/-- `codeMap` from `errors/errors.go`: the registry mapping API reason codes
to SDK sentinel errors. -/
def codeMap : List (String × Sentinel) :=
  [ ("generic::malformedrequest", .ErrInvalidInput),
    ("node::devidexists", .ErrNodeDeviceIDExists),
    ("node::childexists", .ErrNodeChildExists),
    ("node::uniquealiasviolation", .ErrNodeUniqueAliasViolation),
    ("node::uniquechildviolation", .ErrNodeUniqueChildViolation),
    ("node::childnotfound", .ErrNodeChildNotFound),
    ("node::invalidparentid", .ErrNodeInvalidParentID),
    ("node::invalidchildid", .ErrNodeInvalidChildID),
    ("node::nodenotfound", .ErrNodeNotFound),
    ("node::devicenotfound", .ErrNodeDeviceNotFound),
    ("node::invaliduuid", .ErrNodeInvalidUUID),
    ("data::invalidorder", .ErrInvalidOrder),
    ("data::variablenotfound", .ErrVariableNotFound),
    ("data::invalidnodeid", .ErrInvalidNodeID),
    ("logs::invalidnodeid", .ErrInvalidNodeID),
    ("logs::invalidtimerange", .ErrInvalidTimeRange),
    ("variable::namerequired", .ErrVariableNameRequired),
    ("variable::variablerequired", .ErrVariableRequired),
    ("variable::typerequired", .ErrVariableTypeRequired),
    ("health::limitexceeded", .ErrHealthLimitExceeded),
    ("aggregates::invalidaggregationmethod", .ErrInvalidAggregationMethod),
    ("aggregates::missingaggregationmethod", .ErrAggregationMethodRequired),
    ("aggregates::invalidintervalmeasure", .ErrInvalidIntervalMeasure),
    ("aggregates::invalidinterval", .ErrInvalidInterval),
    ("aggregates::invalidtimezone", .ErrInvalidTimezone),
    ("aggregates::invalidfiltertype", .ErrInvalidFilterType),
    ("aggregates::invalidtimerange", .ErrInvalidTimeRange),
    ("fa::invalidexpiry", .ErrExpiryRequried),
    ("fa::tokennofound", .ErrInvalidToken),
    ("cmd::invalidexpiry", .ErrInvalidExpiry),
    ("cmd::unknowntype", .ErrInvalidCommandType),
    ("cmd::notfound", .ErrCommandNotFound),
    ("cmd::invalidfilter", .ErrInvalidFilter),
    ("cmd::cmdidtoolong", .ErrInvalidCommandID),
    ("vs::invalidscope", .ErrInvalidNamespaceScope),
    ("vs::invalidtype", .ErrInvalidValueType),
    ("vs::invalidns", .ErrInvalidNamespaceScope),
    ("vs::invalidrequest", .ErrInvalidInput),
    ("vs::keynotfound", .ErrKeyNotFound) ]

/-- `GetError` from `errors/errors.go`: converts an API reason code and
message into an `AnedyaError`; a code absent from `codeMap` falls back to
`ErrUnknown`. -/
def GetError (code message : String) : SdkError :=
  SdkError.anedya message ((codeMap.lookup code).getD Sentinel.ErrUnknown)

/-- `GeoValue` from `dataAccess/datapoint.go`: a latitude/longitude pair.
The Go fields are `float64`; the claims only involve exact comparison with
zero, so the coordinates are modelled as rationals (JSON numbers). -/
structure GeoValue where
  Lat : ℚ
  Long : ℚ
  deriving DecidableEq, Repr

/-- `DataPoint.AsGeo` from `dataAccess/datapoint_helpers.go`, expressed on
the outcome of the `json.Unmarshal` of the raw value into a `GeoValue`
(`none` models a decode error). After a successful decode the source applies
the sanity check rejecting coordinates that are both zero. -/
def AsGeo (decoded : Option GeoValue) : GeoValue × Bool :=
  match decoded with
  | none => (⟨0, 0⟩, false)
  | some g =>
    if g.Lat = 0 ∧ g.Long = 0 then (⟨0, 0⟩, false)
    else (g, true)

/-- `DataPoint.AsFloat` from `dataAccess/datapoint_helpers.go`, expressed on
the outcome of the `json.Unmarshal` of the raw value into a `float64`
(`none` models a decode error). -/
def AsFloat (decoded : Option ℚ) : ℚ × Bool :=
  match decoded with
  | none => (0, false)
  | some v => (v, true)

/-- `common.BaseResponse`: the envelope fields shared by all API responses. -/
structure BaseResponse where
  Success : Bool
  Error : String
  ReasonCode : String
  deriving DecidableEq, Repr

/-- `Tag` from `nodes/node.go`: a key-value metadata pair on a node. -/
structure Tag where
  Key : String
  Value : String
  deriving DecidableEq, Repr

/-- `CreateNodeRequest` from `nodes/api_op_create_node.go`. -/
structure CreateNodeRequest where
  NodeName : String
  NodeDesc : String
  Tags : List Tag
  PreauthId : String
  deriving DecidableEq, Repr

/-- `CreateNodeResponse` from `nodes/api_op_create_node.go`
(embeds `common.BaseResponse`). -/
structure CreateNodeResponse where
  base : BaseResponse
  NodeId : String
  deriving DecidableEq, Repr

/-- `Node` from `nodes/node.go`, restricted to the data fields populated by
`CreateNode` (the unexported back-pointer to `NodeManagement` is a service
handle, not data, and is omitted). -/
structure Node where
  NodeId : String
  NodeName : String
  NodeDescription : String
  Tags : List Tag
  deriving DecidableEq, Repr

/-- `CreateVariableRequest` from `variable/api_op_create_variable.go`.
The Go field `Type` is rendered `Type_` because `Type` is reserved in Lean. -/
structure CreateVariableRequest where
  Type_ : String
  Name : String
  Description : String
  Variable : String
  TTL : Int
  deriving DecidableEq, Repr

/-- `CreateVariableResponse` from `variable/api_op_create_variable.go`. -/
structure CreateVariableResponse where
  base : BaseResponse
  VariableID : String
  deriving DecidableEq, Repr

/-- `Variable` from `variable/api_op_create_variable.go`, restricted to the
data fields (the unexported `variableManagement` handle is omitted). -/
structure Variable where
  VariableID : String
  Type_ : String
  Name : String
  Description : String
  Variable : String
  TTL : Int
  deriving DecidableEq, Repr

/-- `GetNodeListRequest` from `nodes/api_op_get_list_nodes.go`. -/
structure GetNodeListRequest where
  Limit : Int
  Offset : Int
  Order : String
  deriving DecidableEq, Repr

/-- `getNodeListAPIResponse` from `nodes/api_op_get_list_nodes.go`. -/
structure GetNodeListAPIResponse where
  base : BaseResponse
  CurrentCount : Int
  TotalCount : Int
  Nodes : List String
  Offset : Int
  deriving DecidableEq, Repr

/-- `GetNodeListResult` from `nodes/api_op_get_list_nodes.go`. -/
structure GetNodeListResult where
  CurrentCount : Int
  TotalCount : Int
  Offset : Int
  Nodes : List String
  deriving DecidableEq, Repr

/-- `ListChildNodesRequest` from `nodes/api_op_list_all_child_nodes.go`. -/
structure ListChildNodesRequest where
  ParentId : String
  Limit : Int
  Offset : Int
  deriving DecidableEq, Repr

/-- `ChildNode` from `nodes/api_op_list_all_child_nodes.go`. -/
structure ChildNode where
  ChildId : String
  Alias : String
  CreatedAt : Int
  deriving DecidableEq, Repr

/-- `ListChildNodesResponse` from `nodes/api_op_list_all_child_nodes.go`
(declares its own envelope fields instead of embedding `common.BaseResponse`). -/
structure ListChildNodesResponse where
  Success : Bool
  Error : String
  ReasonCode : String
  TotalCount : Int
  Count : Int
  Next : Int
  Data : List ChildNode
  deriving DecidableEq, Repr

/-- `CommandStatus` from `commands/models.go` (a string newtype). -/
abbrev CommandStatus := String

/-- `CommandFilter` from `commands/api_op_list_commands.go`. -/
structure CommandFilter where
  NodeID : String
  Status : List String
  deriving DecidableEq, Repr

/-- `CommandInfo` from `commands/models.go`. -/
structure CommandInfo where
  Id : String
  Identifier : String
  Status : CommandStatus
  UpdatedOn : Int
  Expired : Bool
  Expiry : Int
  IssuedAt : Int
  deriving DecidableEq, Repr

/-- `ListCommandsRequest` from `commands/api_op_list_commands.go`
(`Filter` is a pointer in Go, hence optional). -/
structure ListCommandsRequest where
  Filter : Option CommandFilter
  Limit : Int
  Offset : Int
  deriving DecidableEq, Repr

/-- `listCommandsAPIResponse` from `commands/api_op_list_commands.go`. -/
structure ListCommandsAPIResponse where
  base : BaseResponse
  Count : Int
  TotalCount : Int
  Data : List CommandInfo
  Next : Int
  deriving DecidableEq, Repr

/-- `ListCommandsResult` from `commands/api_op_list_commands.go`. -/
structure ListCommandsResult where
  Count : Int
  TotalCount : Int
  Commands : List CommandInfo
  Next : Int
  deriving DecidableEq, Repr

/-- `AggregationType`, `IntervalMeasure`, `FilterType` from
`aggregations/api_op_time_aggregations.go` are Go string newtypes. -/
abbrev AggregationType := String

/-- Interval measure string newtype. -/
abbrev IntervalMeasure := String

/-- Filter type string newtype. -/
abbrev FilterType := String

/-- The `FilterInclude` constant. -/
def FilterInclude : FilterType := "include"

/-- The `FilterExclude` constant. -/
def FilterExclude : FilterType := "exclude"

/-- `AggregationObject` from `aggregations/api_op_time_aggregations.go`. -/
structure AggregationObject where
  Compute : AggregationType
  ForEachNode : Bool
  deriving DecidableEq, Repr

/-- `IntervalObject` from `aggregations/api_op_time_aggregations.go`. -/
structure IntervalObject where
  Measure : IntervalMeasure
  Interval : Int
  deriving DecidableEq, Repr

/-- `ResponseOptions` from `aggregations/api_op_time_aggregations.go`. -/
structure ResponseOptions where
  Timezone : String
  deriving DecidableEq, Repr

/-- `FilterObject` from `aggregations/api_op_time_aggregations.go`.
The Go field `Type` is rendered `Type_`. -/
structure FilterObject where
  Nodes : List String
  Type_ : FilterType
  deriving DecidableEq, Repr

/-- `AggregationConfig` from `aggregations/api_op_time_aggregations.go`
(`Filter` is a pointer in Go, hence optional). -/
structure AggregationConfig where
  Aggregation : AggregationObject
  Interval : IntervalObject
  ResponseOptions : ResponseOptions
  Filter : Option FilterObject
  deriving DecidableEq, Repr

/-- `AggregateDataPoint` from `aggregations/api_op_time_aggregations.go`
(`Aggregate` is a `float64`, modelled as a rational JSON number). -/
structure AggregateDataPoint where
  Timestamp : Int
  Aggregate : ℚ
  deriving DecidableEq, Repr

/-- `GetAggregationByTimeRequest` from
`aggregations/api_op_time_aggregations.go`. -/
structure GetAggregationByTimeRequest where
  Variable : String
  From : Int
  To : Int
  Config : AggregationConfig
  deriving DecidableEq, Repr

/-- `getAggregationAPIResponse` from
`aggregations/api_op_time_aggregations.go` (the Go `map[string][]...` is
modelled as an association list). -/
structure GetAggregationAPIResponse where
  base : BaseResponse
  Variable : String
  Config : AggregationConfig
  Data : List (String × List AggregateDataPoint)
  deriving DecidableEq, Repr

/-- `GetAggregationResult` from `aggregations/api_op_time_aggregations.go`. -/
structure GetAggregationResult where
  Variable : String
  Config : AggregationConfig
  Data : List (String × List AggregateDataPoint)
  deriving DecidableEq, Repr

/-- A JSON value, for the dynamically typed `Value interface{}` field of
`dataAccess/api_op_get_for_variable.go`'s `DataPoint`. -/
inductive Jval where
  | null
  | jbool (b : Bool)
  | jnum (q : ℚ)
  | jstr (s : String)
  | jarr (xs : List Jval)
  | jobj (fields : List (String × Jval))

/-- `DataPoint` from `dataAccess/api_op_get_for_variable.go` (the `GetData`
variant whose `Value` is `interface{}`). -/
structure GetDataPoint where
  Timestamp : Int
  Value : Jval

/-- `GetDataRequest` from `dataAccess/api_op_get_for_variable.go`. -/
structure GetDataRequest where
  Variable : String
  Nodes : List String
  From : Int
  To : Int
  Limit : Int
  Order : String
  deriving DecidableEq, Repr

/-- `GetDataResponse` from `dataAccess/api_op_get_for_variable.go`
(declares its own envelope fields; `Data` is a `map[string][]DataPoint`,
modelled as an association list). -/
structure GetDataResponse where
  Success : Bool
  Error : String
  ReasonCode : String
  Variable : String
  Count : Int
  Data : List (String × List GetDataPoint)

/-- `HealthStatusRequest` from `health/api_op_health_status.go`. -/
structure HealthStatusRequest where
  Nodes : List String
  LastContactThreshold : Int
  deriving DecidableEq, Repr

/-- `HealthStatusDetails` from `health/api_op_health_status.go`. -/
structure HealthStatusDetails where
  Online : Bool
  LastHeartbeat : Int
  deriving DecidableEq, Repr

/-- `HealthStatusResponse` from `health/api_op_health_status.go`
(embeds `common.BaseResponse`; `Data` is a `map[string]...`, modelled as an
association list). -/
structure HealthStatusResponse where
  base : BaseResponse
  Data : List (String × HealthStatusDetails)
  deriving DecidableEq, Repr

/-- `maxHealthThresholdSec` from `health/api_op_health_status.go`:
seven days in seconds. -/
def maxHealthThresholdSec : Int := 7 * 24 * 60 * 60

/-- The behaviour of the injected HTTP transport for one call, as seen by an
operation after its own validation: `httpClient.Do` fails; the body read
(`io.ReadAll`) fails after a status was received; the JSON decode of the
body fails; or the call yields a status code and a decoded envelope `ε`.
Operations that decode with `json.NewDecoder(resp.Body).Decode` never reach
a distinct read-failure branch: a read failure there surfaces as a decode
failure, and such operations map `readFailure` to their decode error. -/
inductive TransportOutcome (ε : Type) where
  | doFailure
  | readFailure (status : Nat)
  | decodeFailure (status : Nat)
  | ok (status : Nat) (resp : ε)

/-- The observable outcome of one Go operation call: the returned
(result, error) pair, the number of `httpClient.Do` invocations, and the
final state of the caller-supplied request record (Go passes the request by
pointer, so in-place writes are visible to the caller). -/
structure OpOutcome (Q R : Type) where
  result : Option R
  err : Option SdkError
  netCalls : Nat
  reqAfter : Option Q

/-- `NodeManagement.CreateNode` from `nodes/api_op_create_node.go`.
Validation checks only that the request is non-nil; the classification step
consults only the envelope's success flag (the HTTP status code is never
read). -/
def CreateNode (req : Option CreateNodeRequest)
    (t : TransportOutcome CreateNodeResponse) : OpOutcome CreateNodeRequest Node :=
  match req with
  | none =>
    ⟨none, some (.anedya "create node request cannot be nil" .ErrInputRequired), 0, none⟩
  | some r =>
    match t with
    | .doFailure =>
      ⟨none, some (.anedya "failed to execute create node request" .ErrRequestFailed), 1, some r⟩
    | .readFailure _ =>
      ⟨none, some (.anedya "failed to read create node response" .ErrResponseReadFailed), 1, some r⟩
    | .decodeFailure _ =>
      ⟨none, some (.anedya "failed to decode create node response" .ErrResponseDecodeFailed), 1, some r⟩
    | .ok _ resp =>
      if resp.base.Success = false then
        ⟨none, some (GetError resp.base.ReasonCode resp.base.Error), 1, some r⟩
      else
        ⟨some ⟨resp.NodeId, r.NodeName, r.NodeDesc, r.Tags⟩, none, 1, some r⟩

/-- Go `strings.ToLower`, restricted to ASCII folding (the validated type
tags are ASCII; `String.toLower` from core is not kernel-reducible, so the
map over the character list is spelled out). -/
def goToLower (s : String) : String := ⟨s.data.map Char.toLower⟩

/-- The validation prefix of `VariableManagement.CreateVariable` from
`variable/api_op_create_variable.go` (step 1 of the source), returning the
error of the first failing check. The type check returns the bare sentinel
`errors.ErrVariableTypeRequired` (not wrapped in an `AnedyaError`). -/
def CreateVariableValidate : Option CreateVariableRequest → Option SdkError
  | none => some (.anedya "Input is required" .ErrInputRequired)
  | some r =>
    if r.Name = "" then some (.anedya "Input name is requried" .ErrVariableNameRequired)
    else if r.Variable = "" then some (.anedya "Input variable is required" .ErrVariableRequired)
    else if (["geo", "float"].contains (goToLower r.Type_)) = false then
      some (.sentinel .ErrVariableTypeRequired)
    else none

/-- `VariableManagement.CreateVariable` from
`variable/api_op_create_variable.go`. Classification consults both the HTTP
status code (must be in `[200, 300)`, steps 7) and the envelope's success
flag (step 8). -/
def CreateVariable (input : Option CreateVariableRequest)
    (t : TransportOutcome CreateVariableResponse) : OpOutcome CreateVariableRequest Variable :=
  match input with
  | none =>
    ⟨none, some (.anedya "Input is required" .ErrInputRequired), 0, none⟩
  | some r =>
    if r.Name = "" then
      ⟨none, some (.anedya "Input name is requried" .ErrVariableNameRequired), 0, some r⟩
    else if r.Variable = "" then
      ⟨none, some (.anedya "Input variable is required" .ErrVariableRequired), 0, some r⟩
    else if (["geo", "float"].contains (goToLower r.Type_)) = false then
      ⟨none, some (.sentinel .ErrVariableTypeRequired), 0, some r⟩
    else
      match t with
      | .doFailure =>
        ⟨none, some (.anedya "failed to execute CreateVariable request" .ErrRequestFailed), 1, some r⟩
      | .readFailure _ =>
        ⟨none, some (.anedya "failed to read CreateVariable response" .ErrResponseReadFailed), 1, some r⟩
      | .decodeFailure _ =>
        ⟨none, some (.anedya "failed to decode CreateVariable response" .ErrResponseDecodeFailed), 1, some r⟩
      | .ok status resp =>
        if status < 200 ∨ 300 ≤ status then
          ⟨none, some (GetError resp.base.ReasonCode resp.base.Error), 1, some r⟩
        else if resp.base.Success = false then
          ⟨none, some (GetError resp.base.ReasonCode resp.base.Error), 1, some r⟩
        else
          ⟨some ⟨resp.VariableID, r.Type_, r.Name, r.Description, r.Variable, r.TTL⟩,
            none, 1, some r⟩

/-- The validation prefix of `NodeManagement.GetNodeList` from
`nodes/api_op_get_list_nodes.go` (step 1 of the source). -/
def GetNodeListValidate : Option GetNodeListRequest → Option SdkError
  | none => some (.anedya "get node list request cannot be nil" .ErrNodeListRequestNil)
  | some r =>
    if r.Limit ≤ 0 ∨ 1000 < r.Limit then
      some (.anedya "limit must be between 1 and 1000" .ErrNodeListInvalidLimit)
    else if r.Order ≠ "" ∧ r.Order ≠ "asc" ∧ r.Order ≠ "desc" then
      some (.anedya "order must be either asc or desc" .ErrNodeListInvalidOrder)
    else none

/-- `NodeManagement.GetNodeList` from `nodes/api_op_get_list_nodes.go`.
Rejects a limit outside `[1, 1000]` and a bad order before any network
interaction; the classification step consults only the envelope's success
flag (the HTTP status code is never read). -/
def GetNodeList (req : Option GetNodeListRequest)
    (t : TransportOutcome GetNodeListAPIResponse) : OpOutcome GetNodeListRequest GetNodeListResult :=
  match req with
  | none =>
    ⟨none, some (.anedya "get node list request cannot be nil" .ErrNodeListRequestNil), 0, none⟩
  | some r =>
    if r.Limit ≤ 0 ∨ 1000 < r.Limit then
      ⟨none, some (.anedya "limit must be between 1 and 1000" .ErrNodeListInvalidLimit), 0, some r⟩
    else if r.Order ≠ "" ∧ r.Order ≠ "asc" ∧ r.Order ≠ "desc" then
      ⟨none, some (.anedya "order must be either asc or desc" .ErrNodeListInvalidOrder), 0, some r⟩
    else
      match t with
      | .doFailure =>
        ⟨none, some (.anedya "failed to execute get node list request" .ErrRequestFailed), 1, some r⟩
      | .readFailure _ =>
        ⟨none, some (.anedya "failed to read get node list response" .ErrResponseReadFailed), 1, some r⟩
      | .decodeFailure _ =>
        ⟨none, some (.anedya "failed to decode get node list response" .ErrResponseDecodeFailed), 1, some r⟩
      | .ok _ resp =>
        if resp.base.Success = false then
          ⟨none, some (GetError resp.base.ReasonCode resp.base.Error), 1, some r⟩
        else
          ⟨some ⟨resp.CurrentCount, resp.TotalCount, resp.Offset, resp.Nodes⟩, none, 1, some r⟩

/-- The pagination defaulting of `NodeManagement.ListChildNodes` from
`nodes/api_op_list_all_child_nodes.go`: a limit outside `[1, 1000]` is
overwritten with 100 and a negative offset with 0, in place, in the
caller's request record. -/
def listChildNodesClamp (r : ListChildNodesRequest) : ListChildNodesRequest :=
  let r1 := if r.Limit ≤ 0 ∨ 1000 < r.Limit then { r with Limit := 100 } else r
  if r1.Offset < 0 then { r1 with Offset := 0 } else r1

/-- `NodeManagement.ListChildNodes` from
`nodes/api_op_list_all_child_nodes.go`. After validating `ParentId` it
silently clamps out-of-range pagination fields (writing through the caller's
pointer), and its classification requires HTTP status exactly 200 plus the
envelope's success flag. The body is decoded with `json.NewDecoder`, so a
read failure surfaces as the decode error. -/
def ListChildNodes (req : Option ListChildNodesRequest)
    (t : TransportOutcome ListChildNodesResponse) :
    OpOutcome ListChildNodesRequest ListChildNodesResponse :=
  match req with
  | none =>
    ⟨none, some (.anedya "list child nodes request cannot be nil" .ErrListChildNodesRequestNil), 0, none⟩
  | some r =>
    if r.ParentId = "" then
      ⟨none, some (.anedya "parent id is required to list child nodes" .ErrListChildNodesParentIDRequired), 0, some r⟩
    else
      let rc := listChildNodesClamp r
      match t with
      | .doFailure =>
        ⟨none, some (.anedya "failed to execute ListChildNodes request" .ErrRequestFailed), 1, some rc⟩
      | .readFailure _ =>
        ⟨none, some (.anedya "failed to decode ListChildNodes response" .ErrResponseDecodeFailed), 1, some rc⟩
      | .decodeFailure _ =>
        ⟨none, some (.anedya "failed to decode ListChildNodes response" .ErrResponseDecodeFailed), 1, some rc⟩
      | .ok status resp =>
        if status ≠ 200 then
          ⟨none, some (GetError resp.ReasonCode resp.Error), 1, some rc⟩
        else if resp.Success = false then
          ⟨none, some (GetError resp.ReasonCode resp.Error), 1, some rc⟩
        else
          ⟨some resp, none, 1, some rc⟩

/-- `CommandManagement.ListCommands` from
`commands/api_op_list_commands.go`. Validation accepts a limit in `[0, 100]`
and a non-negative offset; the classification step consults only the
envelope's success flag. -/
def ListCommands (req : Option ListCommandsRequest)
    (t : TransportOutcome ListCommandsAPIResponse) :
    OpOutcome ListCommandsRequest ListCommandsResult :=
  match req with
  | none =>
    ⟨none, some (.anedya "list commands request cannot be nil" .ErrRequestNil), 0, none⟩
  | some r =>
    if r.Limit < 0 ∨ 100 < r.Limit then
      ⟨none, some (.anedya "limit must be between 0 and 100" .ErrInvalidLimit), 0, some r⟩
    else if r.Offset < 0 then
      ⟨none, some (.anedya "offset must be >= 0" .ErrInvalidOffset), 0, some r⟩
    else
      match t with
      | .doFailure =>
        ⟨none, some (.anedya "failed to execute list commands request" .ErrRequestFailed), 1, some r⟩
      | .readFailure _ =>
        ⟨none, some (.anedya "failed to read list commands response" .ErrResponseReadFailed), 1, some r⟩
      | .decodeFailure _ =>
        ⟨none, some (.anedya "failed to decode list commands response" .ErrResponseDecodeFailed), 1, some r⟩
      | .ok _ resp =>
        if resp.base.Success = false then
          ⟨none, some (GetError resp.base.ReasonCode resp.base.Error), 1, some r⟩
        else
          ⟨some ⟨resp.Count, resp.TotalCount, resp.Data, resp.Next⟩, none, 1, some r⟩

/-- The validation prefix of `AggregationsManagement.GetAggregationByTime`
from `aggregations/api_op_time_aggregations.go` (step 1 of the source).
Note that the compute method and interval measure are only checked to be
non-empty strings. -/
def GetAggregationByTimeValidate : Option GetAggregationByTimeRequest → Option SdkError
  | none => some (.anedya "aggregation request cannot be nil" .ErrRequestNil)
  | some r =>
    if r.Variable = "" then
      some (.anedya "variable is required" .ErrVariableRequired)
    else if r.From ≤ 0 ∨ r.To ≤ 0 ∨ r.To < r.From then
      some (.anedya "invalid from/to timestamp range" .ErrInvalidTimeRange)
    else if r.Config.Aggregation.Compute = "" then
      some (.anedya "aggregation compute type is required" .ErrAggregationComputeRequired)
    else if r.Config.Interval.Measure = "" ∨ r.Config.Interval.Interval ≤ 0 then
      some (.anedya "invalid aggregation interval configuration" .ErrInvalidInterval)
    else
      match r.Config.Filter with
      | none => none
      | some f =>
        if f.Nodes = [] then
          some (.anedya "filter nodes cannot be empty" .ErrFilterNodesRequired)
        else if f.Type_ ≠ FilterInclude ∧ f.Type_ ≠ FilterExclude then
          some (.anedya "filter type must be include or exclude" .ErrInvalidFilterType)
        else none

/-- `AggregationsManagement.GetAggregationByTime` from
`aggregations/api_op_time_aggregations.go`. The classification step
consults only the envelope's success flag. -/
def GetAggregationByTime (req : Option GetAggregationByTimeRequest)
    (t : TransportOutcome GetAggregationAPIResponse) :
    OpOutcome GetAggregationByTimeRequest GetAggregationResult :=
  match req with
  | none =>
    ⟨none, some (.anedya "aggregation request cannot be nil" .ErrRequestNil), 0, none⟩
  | some r =>
    match GetAggregationByTimeValidate (some r) with
    | some e => ⟨none, some e, 0, some r⟩
    | none =>
      match t with
      | .doFailure =>
        ⟨none, some (.anedya "failed to execute aggregation request" .ErrRequestFailed), 1, some r⟩
      | .readFailure _ =>
        ⟨none, some (.anedya "failed to read aggregation response" .ErrResponseReadFailed), 1, some r⟩
      | .decodeFailure _ =>
        ⟨none, some (.anedya "failed to decode aggregation response" .ErrResponseDecodeFailed), 1, some r⟩
      | .ok _ resp =>
        if resp.base.Success = false then
          ⟨none, some (GetError resp.base.ReasonCode resp.base.Error), 1, some r⟩
        else
          ⟨some ⟨resp.Variable, resp.Config, resp.Data⟩, none, 1, some r⟩

/-- The validation prefix of `DataManagement.GetData` from
`dataAccess/api_op_get_for_variable.go`. -/
def GetDataValidate : Option GetDataRequest → Option SdkError
  | none => some (.anedya "get data request cannot be nil" .ErrRequestNil)
  | some r =>
    if r.Variable = "" then
      some (.anedya "variable is required" .ErrVariableRequired)
    else if r.Nodes = [] then
      some (.anedya "at least one node must be provided" .ErrNodesEmpty)
    else if r.From ≤ 0 ∨ r.To ≤ 0 ∨ r.To < r.From then
      some (.anedya "invalid from/to timestamp range" .ErrInvalidTimeRange)
    else if r.Order ≠ "" ∧ r.Order ≠ "asc" ∧ r.Order ≠ "desc" then
      some (.anedya "order must be asc or desc" .ErrInvalidOrder)
    else none

/-- `DataManagement.GetData` from `dataAccess/api_op_get_for_variable.go`.
The body is decoded with `json.NewDecoder`, so a read failure surfaces as
the decode error. On an HTTP status other than 200 or a false success flag,
the source returns `&apiResp, errors.GetError(...)`: the decoded response
record AND the structured error, both non-nil. -/
def GetData (req : Option GetDataRequest)
    (t : TransportOutcome GetDataResponse) : OpOutcome GetDataRequest GetDataResponse :=
  match req with
  | none =>
    ⟨none, some (.anedya "get data request cannot be nil" .ErrRequestNil), 0, none⟩
  | some r =>
    match GetDataValidate (some r) with
    | some e => ⟨none, some e, 0, some r⟩
    | none =>
      match t with
      | .doFailure =>
        ⟨none, some (.anedya "failed to execute GetData request" .ErrRequestFailed), 1, some r⟩
      | .readFailure _ =>
        ⟨none, some (.anedya "failed to decode GetData response" .ErrResponseDecodeFailed), 1, some r⟩
      | .decodeFailure _ =>
        ⟨none, some (.anedya "failed to decode GetData response" .ErrResponseDecodeFailed), 1, some r⟩
      | .ok status resp =>
        if status ≠ 200 ∨ resp.Success = false then
          ⟨some resp, some (GetError resp.ReasonCode resp.Error), 1, some r⟩
        else
          ⟨some resp, none, 1, some r⟩

/-- The validation prefix of `HealthManagement.GetHealthStatus` from
`health/api_op_health_status.go`. -/
def GetHealthStatusValidate : Option HealthStatusRequest → Option SdkError
  | none => some (.anedya "health status request cannot be nil" .ErrRequestNil)
  | some r =>
    if r.Nodes = [] then
      some (.anedya "at least one node must be provided" .ErrNodesEmpty)
    else if r.LastContactThreshold ≤ 0 then
      some (.anedya "lastContactThreshold must be greater than zero" .ErrInvalidTimeRange)
    else if maxHealthThresholdSec < r.LastContactThreshold then
      some (.anedya "lastContactThreshold cannot exceed 7 days" .ErrHealthLimitExceeded)
    else none

/-- `HealthManagement.GetHealthStatus` from `health/api_op_health_status.go`.
Classification consults both the HTTP status (must be in `[200, 300)`) and
the envelope's success flag; on success the source returns a freshly
constructed `&HealthStatusResponse{Data: apiResp.Data}`, leaving the
embedded `BaseResponse` at its zero value. The body is decoded with
`json.NewDecoder`, so a read failure surfaces as the decode error. -/
def GetHealthStatus (req : Option HealthStatusRequest)
    (t : TransportOutcome HealthStatusResponse) :
    OpOutcome HealthStatusRequest HealthStatusResponse :=
  match req with
  | none =>
    ⟨none, some (.anedya "health status request cannot be nil" .ErrRequestNil), 0, none⟩
  | some r =>
    match GetHealthStatusValidate (some r) with
    | some e => ⟨none, some e, 0, some r⟩
    | none =>
      match t with
      | .doFailure =>
        ⟨none, some (.anedya "failed to execute health status request" .ErrRequestFailed), 1, some r⟩
      | .readFailure _ =>
        ⟨none, some (.anedya "failed to decode health status response" .ErrResponseDecodeFailed), 1, some r⟩
      | .decodeFailure _ =>
        ⟨none, some (.anedya "failed to decode health status response" .ErrResponseDecodeFailed), 1, some r⟩
      | .ok status resp =>
        if status < 200 ∨ 300 ≤ status then
          ⟨none, some (GetError resp.base.ReasonCode resp.base.Error), 1, some r⟩
        else if resp.base.Success = false then
          ⟨none, some (GetError resp.base.ReasonCode resp.base.Error), 1, some r⟩
        else
          ⟨some ⟨⟨false, "", ""⟩, resp.Data⟩, none, 1, some r⟩

/-!
## Claim theorems
-/

/-- C3: `GetError` is pure and total: two calls with the same reason code
resolve to the same sentinel kind regardless of the message, and a code
absent from `codeMap` resolves to `ErrUnknown` (it always returns a
well-formed `AnedyaError`, never failing). -/
theorem C3_getError_pure_total (code m1 m2 : String) :
    (GetError code m1).kind = (GetError code m2).kind ∧
    (codeMap.lookup code = none → GetError code m1 = SdkError.anedya m1 Sentinel.ErrUnknown) := by
  constructor
  · simp [GetError, SdkError.kind]
  · intro h
    simp [GetError, h]

/-- Witness for C3 at the unmapped code of the spec's scenario. -/
theorem C3_witness :
    (GetError "zz::unmapped" "a").kind = (GetError "zz::unmapped" "b").kind ∧
    GetError "zz::unmapped" "a" = SdkError.anedya "a" Sentinel.ErrUnknown :=
  ⟨(C3_getError_pure_total "zz::unmapped" "a" "b").1,
   (C3_getError_pure_total "zz::unmapped" "a" "b").2 (by decide)⟩

/-- C9: a data point whose JSON value decodes successfully as the geo pair
(0, 0) is reported by `AsGeo` exactly like a decode failure: the zero
`GeoValue` together with `false`. -/
theorem C9_asGeo_zero_is_failure :
    AsGeo (some ⟨0, 0⟩) = (⟨0, 0⟩, false) ∧ AsGeo none = (⟨0, 0⟩, false) :=
  ⟨by decide, rfl⟩

/-- C8: with HTTP status 500 and envelope
`{success:false, error:"boom", reasonCode:"node::nodenotfound"}`,
`CreateNode` returns the failure `AnedyaError{Message:"boom",
Err:ErrNodeNotFound}` (the reason code resolves to the node-not-found
sentinel and the envelope's error string is preserved). -/
theorem C8_createNode_500_nodenotfound :
    CreateNode (some ⟨"sensor-1", "", [], ""⟩)
        (.ok 500 ⟨⟨false, "boom", "node::nodenotfound"⟩, ""⟩) =
      ⟨none, some (.anedya "boom" .ErrNodeNotFound), 1, some ⟨"sensor-1", "", [], ""⟩⟩ := rfl

/-- C1 counterexample: `CreateNode` never reads the HTTP status code, so a
response with status 500 and `success=true` is classified as a SUCCESS,
contradicting the claim that every operation must classify a non-2xx
status as a failure. -/
theorem C1_counterexample :
    CreateNode (some ⟨"sensor-1", "", [], ""⟩) (.ok 500 ⟨⟨true, "", ""⟩, "n-123"⟩) =
      ⟨some ⟨"n-123", "sensor-1", "", []⟩, none, 1, some ⟨"sensor-1", "", [], ""⟩⟩ := rfl

/-- C1 amended: `CreateVariable` consults both signals (success iff HTTP
status in [200, 300) and envelope success flag true, failure derived from
`GetError` in every other combination), but `CreateNode` consults only the
envelope's success flag, so its outcome is independent of the HTTP status. -/
theorem C1_classification_amended :
    (∀ (r : CreateVariableRequest) (status : Nat) (resp : CreateVariableResponse),
      CreateVariableValidate (some r) = none →
        ((200 ≤ status ∧ status < 300 ∧ resp.base.Success = true →
            CreateVariable (some r) (.ok status resp) =
              ⟨some ⟨resp.VariableID, r.Type_, r.Name, r.Description, r.Variable, r.TTL⟩,
                none, 1, some r⟩) ∧
         (status < 200 ∨ 300 ≤ status ∨ resp.base.Success = false →
            CreateVariable (some r) (.ok status resp) =
              ⟨none, some (GetError resp.base.ReasonCode resp.base.Error), 1, some r⟩))) ∧
    (∀ (q : CreateNodeRequest) (status : Nat) (resp : CreateNodeResponse),
      (CreateNode (some q) (.ok status resp)).err = none ↔ resp.base.Success = true) := by
  constructor
  · intro r status resp hv
    have h1 : ¬r.Name = "" := by
      intro h
      simp only [CreateVariableValidate, if_pos h] at hv
      exact Option.noConfusion hv
    have h2 : ¬r.Variable = "" := by
      intro h
      simp only [CreateVariableValidate, if_neg h1, if_pos h] at hv
      exact Option.noConfusion hv
    have h3 : ¬((["geo", "float"].contains (goToLower r.Type_)) = false) := by
      intro h
      simp only [CreateVariableValidate, if_neg h1, if_neg h2, if_pos h] at hv
      exact Option.noConfusion hv
    constructor
    · rintro ⟨hs1, hs2, hsucc⟩
      have hst : ¬(status < 200 ∨ 300 ≤ status) := by omega
      have hflag : ¬(resp.base.Success = false) := by simp [hsucc]
      simp only [CreateVariable]
      rw [if_neg h1, if_neg h2, if_neg h3, if_neg hst, if_neg hflag]
    · intro hfail
      by_cases hst : status < 200 ∨ 300 ≤ status
      · simp only [CreateVariable]
        rw [if_neg h1, if_neg h2, if_neg h3, if_pos hst]
      · have hflag : resp.base.Success = false := by
          rcases hfail with hlo | hhi | hflag
          · exact absurd (Or.inl hlo) hst
          · exact absurd (Or.inr hhi) hst
          · exact hflag
        simp only [CreateVariable]
        rw [if_neg h1, if_neg h2, if_neg h3, if_neg hst, if_pos hflag]
  · intro q status resp
    cases hsucc : resp.base.Success <;> simp [CreateNode, hsucc]

/-- Witness for C1 amended: a 201/success call succeeds and a 500 call with
`success=true` fails for `CreateVariable`. -/
theorem C1_witness :
    CreateVariable (some ⟨"float", "n", "", "v", 0⟩) (.ok 201 ⟨⟨true, "", ""⟩, "var-1"⟩) =
      ⟨some ⟨"var-1", "float", "n", "", "v", 0⟩, none, 1, some ⟨"float", "n", "", "v", 0⟩⟩ ∧
    CreateVariable (some ⟨"float", "n", "", "v", 0⟩) (.ok 500 ⟨⟨true, "x", "zz"⟩, ""⟩) =
      ⟨none, some (GetError "zz" "x"), 1, some ⟨"float", "n", "", "v", 0⟩⟩ :=
  ⟨(C1_classification_amended.1 _ 201 _ (by decide)).1 ⟨by decide, by decide, rfl⟩,
   (C1_classification_amended.1 _ 500 _ (by decide)).2 (Or.inr (Or.inl (by decide)))⟩

/-- C2: a request that fails validation is answered with the validation
error and zero transport invocations, for every behaviour of the injected
transport (shown for `CreateVariable` and `GetNodeList`, the operations the
claim cites). -/
theorem C2_validation_no_network :
    (∀ (inp : Option CreateVariableRequest) (t : TransportOutcome CreateVariableResponse)
        (e : SdkError), CreateVariableValidate inp = some e →
        (CreateVariable inp t).netCalls = 0 ∧ (CreateVariable inp t).err = some e) ∧
    (∀ (req : Option GetNodeListRequest) (t : TransportOutcome GetNodeListAPIResponse)
        (e : SdkError), GetNodeListValidate req = some e →
        (GetNodeList req t).netCalls = 0 ∧ (GetNodeList req t).err = some e) := by
  constructor
  · rintro (_ | r) t e hv
    · simp only [CreateVariableValidate, Option.some_inj] at hv
      subst hv
      exact ⟨rfl, rfl⟩
    · by_cases h1 : r.Name = ""
      · simp only [CreateVariableValidate, if_pos h1, Option.some_inj] at hv
        subst hv
        simp only [CreateVariable]
        rw [if_pos h1]
        exact ⟨rfl, rfl⟩
      · by_cases h2 : r.Variable = ""
        · simp only [CreateVariableValidate, if_neg h1, if_pos h2, Option.some_inj] at hv
          subst hv
          simp only [CreateVariable]
          rw [if_neg h1, if_pos h2]
          exact ⟨rfl, rfl⟩
        · by_cases h3 : (["geo", "float"].contains (goToLower r.Type_)) = false
          · simp only [CreateVariableValidate, if_neg h1, if_neg h2, if_pos h3,
              Option.some_inj] at hv
            subst hv
            simp only [CreateVariable]
            rw [if_neg h1, if_neg h2, if_pos h3]
            exact ⟨rfl, rfl⟩
          · simp only [CreateVariableValidate, if_neg h1, if_neg h2, if_neg h3] at hv
            exact Option.noConfusion hv
  · rintro (_ | r) t e hv
    · simp only [GetNodeListValidate, Option.some_inj] at hv
      subst hv
      exact ⟨rfl, rfl⟩
    · by_cases h1 : r.Limit ≤ 0 ∨ 1000 < r.Limit
      · simp only [GetNodeListValidate, if_pos h1, Option.some_inj] at hv
        subst hv
        simp only [GetNodeList]
        rw [if_pos h1]
        exact ⟨rfl, rfl⟩
      · by_cases h2 : r.Order ≠ "" ∧ r.Order ≠ "asc" ∧ r.Order ≠ "desc"
        · simp only [GetNodeListValidate, if_neg h1, if_pos h2, Option.some_inj] at hv
          subst hv
          simp only [GetNodeList]
          rw [if_neg h1, if_pos h2]
          exact ⟨rfl, rfl⟩
        · simp only [GetNodeListValidate, if_neg h1, if_neg h2] at hv
          exact Option.noConfusion hv

/-- Witness for C2: an unsupported variable type and an out-of-range list
limit are both rejected with zero transport invocations. -/
theorem C2_witness :
    ((CreateVariable (some ⟨"unsupported", "n", "", "v", 0⟩) .doFailure).netCalls = 0 ∧
      (CreateVariable (some ⟨"unsupported", "n", "", "v", 0⟩) .doFailure).err =
        some (.sentinel .ErrVariableTypeRequired)) ∧
    ((GetNodeList (some ⟨5000, 0, ""⟩) .doFailure).netCalls = 0 ∧
      (GetNodeList (some ⟨5000, 0, ""⟩) .doFailure).err =
        some (.anedya "limit must be between 1 and 1000" .ErrNodeListInvalidLimit)) :=
  ⟨C2_validation_no_network.1 _ _ _ (by decide),
   C2_validation_no_network.2 _ _ _ (by decide)⟩

/-- C4 counterexample: `ListChildNodes` does NOT reject a limit of 2000
(outside [1, 1000]); it silently clamps it to 100 and performs the network
call, returning the decoded response as a success. -/
theorem C4_counterexample :
    ListChildNodes (some ⟨"p", 2000, 0⟩) (.ok 200 ⟨true, "", "", 0, 0, 0, []⟩) =
      ⟨some ⟨true, "", "", 0, 0, 0, []⟩, none, 1, some ⟨"p", 100, 0⟩⟩ := rfl

/-- C4 amended: the pagination-limit policy is inconsistent across the list
operations: `GetNodeList` rejects a limit outside [1, 1000] with a
validation error and no network call; `ListChildNodes` silently clamps an
out-of-range limit to 100 (and a negative offset to 0) and always proceeds
to the network; `ListCommands` rejects a limit outside [0, 100] with a
validation error and no network call. -/
theorem C4_limit_policy_amended :
    (∀ (r : GetNodeListRequest) (t : TransportOutcome GetNodeListAPIResponse),
      (r.Limit ≤ 0 ∨ 1000 < r.Limit) →
        (GetNodeList (some r) t).err =
          some (.anedya "limit must be between 1 and 1000" .ErrNodeListInvalidLimit) ∧
        (GetNodeList (some r) t).netCalls = 0) ∧
    (∀ (r : ListChildNodesRequest) (t : TransportOutcome ListChildNodesResponse),
      r.ParentId ≠ "" →
        (ListChildNodes (some r) t).netCalls = 1 ∧
        (ListChildNodes (some r) t).reqAfter = some (listChildNodesClamp r)) ∧
    (∀ (r : ListCommandsRequest) (t : TransportOutcome ListCommandsAPIResponse),
      (r.Limit < 0 ∨ 100 < r.Limit) →
        (ListCommands (some r) t).err =
          some (.anedya "limit must be between 0 and 100" .ErrInvalidLimit) ∧
        (ListCommands (some r) t).netCalls = 0) := by
  refine ⟨?_, ?_, ?_⟩
  · intro r t h
    simp only [GetNodeList]
    rw [if_pos h]
    exact ⟨rfl, rfl⟩
  · intro r t hpid
    simp only [ListChildNodes]
    rw [if_neg hpid]
    cases t with
    | doFailure => exact ⟨rfl, rfl⟩
    | readFailure s => exact ⟨rfl, rfl⟩
    | decodeFailure s => exact ⟨rfl, rfl⟩
    | ok s resp =>
      dsimp only
      split
      · exact ⟨rfl, rfl⟩
      · split
        · exact ⟨rfl, rfl⟩
        · exact ⟨rfl, rfl⟩
  · intro r t h
    simp only [ListCommands]
    rw [if_pos h]
    exact ⟨rfl, rfl⟩

/-- Witness for C4 amended at concrete out-of-range limits. -/
theorem C4_witness :
    ((GetNodeList (some ⟨0, 0, ""⟩) .doFailure).err =
        some (.anedya "limit must be between 1 and 1000" .ErrNodeListInvalidLimit) ∧
      (GetNodeList (some ⟨0, 0, ""⟩) .doFailure).netCalls = 0) ∧
    ((ListChildNodes (some ⟨"p", -7, -3⟩) .doFailure).netCalls = 1 ∧
      (ListChildNodes (some ⟨"p", -7, -3⟩) .doFailure).reqAfter =
        some (listChildNodesClamp ⟨"p", -7, -3⟩)) ∧
    ((ListCommands (some ⟨none, 500, 0⟩) .doFailure).err =
        some (.anedya "limit must be between 0 and 100" .ErrInvalidLimit) ∧
      (ListCommands (some ⟨none, 500, 0⟩) .doFailure).netCalls = 0) :=
  ⟨C4_limit_policy_amended.1 _ _ (by decide),
   C4_limit_policy_amended.2.1 _ _ (by decide),
   C4_limit_policy_amended.2.2 _ _ (by decide)⟩

/-- C6 counterexample: `ListChildNodes` writes through the caller's request
pointer: after a call with Limit 0 and Offset -1 the caller's record holds
Limit 100 and Offset 0, so the request is NOT left unchanged. -/
theorem C6_counterexample :
    (ListChildNodes (some ⟨"p", 0, -1⟩) (.ok 200 ⟨true, "", "", 0, 0, 0, []⟩)).reqAfter =
        some ⟨"p", 100, 0⟩ ∧
    (⟨"p", 100, 0⟩ : ListChildNodesRequest) ≠ (⟨"p", 0, -1⟩ : ListChildNodesRequest) := by
  exact ⟨rfl, by decide⟩

/-- C6 amended: validation performs no I/O (an operation whose validation
fails makes zero transport calls, see the C2 development), and `GetNodeList`
leaves the caller's request unchanged in every case; `ListChildNodes`,
however, overwrites an out-of-range Limit with 100 and a negative Offset
with 0 in the caller's request record whenever its ParentId check passes. -/
theorem C6_validation_frame_amended :
    (∀ (req : Option GetNodeListRequest) (t : TransportOutcome GetNodeListAPIResponse),
        (GetNodeList req t).reqAfter = req) ∧
    (∀ (r : ListChildNodesRequest) (t : TransportOutcome ListChildNodesResponse),
        (ListChildNodes (some r) t).reqAfter =
          some (if r.ParentId = "" then r else listChildNodesClamp r)) := by
  constructor
  · rintro (_ | r) t
    · rfl
    · simp only [GetNodeList]
      split
      · rfl
      · split
        · rfl
        · cases t with
          | doFailure => rfl
          | readFailure s => rfl
          | decodeFailure s => rfl
          | ok s resp =>
            dsimp only
            split <;> rfl
  · intro r t
    by_cases hpid : r.ParentId = ""
    · rw [if_pos hpid]
      simp only [ListChildNodes]
      rw [if_pos hpid]
    · rw [if_neg hpid]
      simp only [ListChildNodes]
      rw [if_neg hpid]
      cases t with
      | doFailure => rfl
      | readFailure s => rfl
      | decodeFailure s => rfl
      | ok s resp =>
        dsimp only
        split
        · rfl
        · split <;> rfl


/-- C5 counterexample: an aggregation request with compute method "bogus"
(not in the fixed set) and interval measure "fortnight" (not in the fixed
set) passes validation and executes the network call, contradicting the
claim that such requests are rejected with a validation error. -/
theorem C5_counterexample :
    GetAggregationByTime
      (some ⟨"v", 1, 2, ⟨⟨"bogus", false⟩, ⟨"fortnight", 1⟩, ⟨""⟩, none⟩⟩)
      (.ok 200 ⟨⟨true, "", ""⟩, "v", ⟨⟨"bogus", false⟩, ⟨"fortnight", 1⟩, ⟨""⟩, none⟩, []⟩) =
      ⟨some ⟨"v", ⟨⟨"bogus", false⟩, ⟨"fortnight", 1⟩, ⟨""⟩, none⟩, []⟩, none, 1,
        some ⟨"v", 1, 2, ⟨⟨"bogus", false⟩, ⟨"fortnight", 1⟩, ⟨""⟩, none⟩⟩⟩ := rfl

/-- C5 amended: `GetAggregationByTime` validation accepts a request iff the
variable is non-empty, the timestamps are strictly positive and ordered,
the compute method is a NON-EMPTY string (membership in the fixed set
{sum, avg, median, min, max, diff, deltasum, stddev} is not checked), the
interval measure is a NON-EMPTY string (membership in {year, month, week,
day, hour, minute} is not checked) with strictly positive interval count,
and any present node filter has a non-empty node list and type include or
exclude; whenever validation fails the request is rejected with the
validation error and zero transport invocations. -/
theorem C5_aggregation_validation_amended :
    (∀ r : GetAggregationByTimeRequest,
      GetAggregationByTimeValidate (some r) = none ↔
        (r.Variable ≠ "" ∧ 0 < r.From ∧ 0 < r.To ∧ r.From ≤ r.To ∧
         r.Config.Aggregation.Compute ≠ "" ∧
         r.Config.Interval.Measure ≠ "" ∧ 0 < r.Config.Interval.Interval ∧
         (∀ f, r.Config.Filter = some f →
            f.Nodes ≠ [] ∧ (f.Type_ = FilterInclude ∨ f.Type_ = FilterExclude)))) ∧
    (∀ (r : GetAggregationByTimeRequest) (t : TransportOutcome GetAggregationAPIResponse)
        (e : SdkError), GetAggregationByTimeValidate (some r) = some e →
        (GetAggregationByTime (some r) t).err = some e ∧
        (GetAggregationByTime (some r) t).netCalls = 0) := by
  constructor
  · intro r
    by_cases c1 : r.Variable = ""
    · simp only [GetAggregationByTimeValidate, if_pos c1]
      constructor
      · intro h; exact Option.noConfusion h
      · rintro ⟨hvar, -⟩; exact absurd c1 hvar
    · by_cases c2 : r.From ≤ 0 ∨ r.To ≤ 0 ∨ r.To < r.From
      · simp only [GetAggregationByTimeValidate, if_neg c1, if_pos c2]
        constructor
        · intro h; exact Option.noConfusion h
        · rintro ⟨-, hf, ht, hle, -⟩; omega
      · by_cases c3 : r.Config.Aggregation.Compute = ""
        · simp only [GetAggregationByTimeValidate, if_neg c1, if_neg c2, if_pos c3]
          constructor
          · intro h; exact Option.noConfusion h
          · rintro ⟨-, -, -, -, hc, -⟩; exact absurd c3 hc
        · by_cases c4 : r.Config.Interval.Measure = "" ∨ r.Config.Interval.Interval ≤ 0
          · simp only [GetAggregationByTimeValidate, if_neg c1, if_neg c2, if_neg c3, if_pos c4]
            constructor
            · intro h; exact Option.noConfusion h
            · rintro ⟨-, -, -, -, -, hm, hi, -⟩
              rcases c4 with cm | ci
              · exact absurd cm hm
              · omega
          · cases hfil : r.Config.Filter with
            | none =>
              simp only [GetAggregationByTimeValidate, if_neg c1, if_neg c2, if_neg c3,
                if_neg c4, hfil]
              push_neg at c2 c4
              constructor
              · intro _
                refine ⟨c1, c2.1, c2.2.1, c2.2.2, c3, c4.1, c4.2, ?_⟩
                intro f hf
                exact Option.noConfusion hf
              · intro _; trivial
            | some f =>
              by_cases c5 : f.Nodes = []
              · simp only [GetAggregationByTimeValidate, if_neg c1, if_neg c2, if_neg c3,
                  if_neg c4, hfil, if_pos c5]
                constructor
                · intro h; exact Option.noConfusion h
                · rintro ⟨-, -, -, -, -, -, -, hfall⟩
                  exact absurd c5 (hfall f rfl).1
              · by_cases c6 : f.Type_ ≠ FilterInclude ∧ f.Type_ ≠ FilterExclude
                · simp only [GetAggregationByTimeValidate, if_neg c1, if_neg c2, if_neg c3,
                    if_neg c4, hfil, if_neg c5, if_pos c6]
                  constructor
                  · intro h; exact Option.noConfusion h
                  · rintro ⟨-, -, -, -, -, -, -, hfall⟩
                    rcases (hfall f rfl).2 with h | h
                    · exact absurd h c6.1
                    · exact absurd h c6.2
                · simp only [GetAggregationByTimeValidate, if_neg c1, if_neg c2, if_neg c3,
                    if_neg c4, hfil, if_neg c5, if_neg c6]
                  push_neg at c2 c4
                  rw [not_and_or, not_not, not_not] at c6
                  constructor
                  · intro _
                    refine ⟨c1, c2.1, c2.2.1, c2.2.2, c3, c4.1, c4.2, ?_⟩
                    intro f2 hf2
                    obtain rfl := Option.some_inj.mp hf2
                    exact ⟨c5, c6⟩
                  · intro _; trivial
  · intro r t e hv
    simp only [GetAggregationByTime, hv]
    exact ⟨trivial, trivial⟩

/-- Witness for C5 amended: an empty variable name is rejected with no
network call. -/
theorem C5_witness :
    (GetAggregationByTime
        (some ⟨"", 1, 2, ⟨⟨"sum", false⟩, ⟨"day", 1⟩, ⟨""⟩, none⟩⟩) .doFailure).err =
      some (.anedya "variable is required" .ErrVariableRequired) ∧
    (GetAggregationByTime
        (some ⟨"", 1, 2, ⟨⟨"sum", false⟩, ⟨"day", 1⟩, ⟨""⟩, none⟩⟩) .doFailure).netCalls = 0 :=
  C5_aggregation_validation_amended.2 _ _ _ (by decide)



/-- An operation outcome where at most one of (result, error) is non-nil. -/
def exclusiveOutcome {Q R : Type} (o : OpOutcome Q R) : Prop :=
  o.result = none ∨ o.err = none

/-- C7 counterexample: on an HTTP 500 / success=false response, `GetData`
returns BOTH a non-nil decoded response record and a non-nil structured
error, contradicting the claim that no operation returns both. -/
theorem C7_counterexample :
    GetData (some ⟨"v", ["n1"], 1, 2, 0, ""⟩)
        (.ok 500 ⟨false, "boom", "data::variablenotfound", "v", 0, []⟩) =
      ⟨some ⟨false, "boom", "data::variablenotfound", "v", 0, []⟩,
        some (.anedya "boom" .ErrVariableNotFound), 1, some ⟨"v", ["n1"], 1, 2, 0, ""⟩⟩ := rfl

/-- C7 amended: every modelled operation except `GetData` returns exactly
one of a populated result (with nil error) or a structured error (with nil
result); `GetData` alone, whenever the HTTP status is not 200 or the
envelope's success flag is false, returns the decoded response record
together with the structured error, both non-nil. -/
theorem C7_exclusive_amended :
    (∀ q t, exclusiveOutcome (CreateNode q t)) ∧
    (∀ q t, exclusiveOutcome (CreateVariable q t)) ∧
    (∀ q t, exclusiveOutcome (GetNodeList q t)) ∧
    (∀ q t, exclusiveOutcome (ListChildNodes q t)) ∧
    (∀ q t, exclusiveOutcome (ListCommands q t)) ∧
    (∀ q t, exclusiveOutcome (GetAggregationByTime q t)) ∧
    (∀ q t, exclusiveOutcome (GetHealthStatus q t)) ∧
    (∀ (r : GetDataRequest) (status : Nat) (resp : GetDataResponse),
        GetDataValidate (some r) = none → (status ≠ 200 ∨ resp.Success = false) →
        (GetData (some r) (.ok status resp)).result = some resp ∧
        (GetData (some r) (.ok status resp)).err = some (GetError resp.ReasonCode resp.Error)) := by
  refine ⟨?_, ?_, ?_, ?_, ?_, ?_, ?_, ?_⟩
  · rintro (_ | q) t
    · exact Or.inl rfl
    · cases t with
      | doFailure => exact Or.inl rfl
      | readFailure s => exact Or.inl rfl
      | decodeFailure s => exact Or.inl rfl
      | ok s resp =>
        simp only [CreateNode, exclusiveOutcome]
        split
        · exact Or.inl rfl
        · exact Or.inr rfl
  · rintro (_ | q) t
    · exact Or.inl rfl
    · simp only [CreateVariable, exclusiveOutcome]
      split
      · exact Or.inl rfl
      · split
        · exact Or.inl rfl
        · split
          · exact Or.inl rfl
          · cases t with
            | doFailure => exact Or.inl rfl
            | readFailure s => exact Or.inl rfl
            | decodeFailure s => exact Or.inl rfl
            | ok s resp =>
              dsimp only
              split
              · exact Or.inl rfl
              · split
                · exact Or.inl rfl
                · exact Or.inr rfl
  · rintro (_ | q) t
    · exact Or.inl rfl
    · simp only [GetNodeList, exclusiveOutcome]
      split
      · exact Or.inl rfl
      · split
        · exact Or.inl rfl
        · cases t with
          | doFailure => exact Or.inl rfl
          | readFailure s => exact Or.inl rfl
          | decodeFailure s => exact Or.inl rfl
          | ok s resp =>
            dsimp only
            split
            · exact Or.inl rfl
            · exact Or.inr rfl
  · rintro (_ | q) t
    · exact Or.inl rfl
    · simp only [ListChildNodes, exclusiveOutcome]
      split
      · exact Or.inl rfl
      · cases t with
        | doFailure => exact Or.inl rfl
        | readFailure s => exact Or.inl rfl
        | decodeFailure s => exact Or.inl rfl
        | ok s resp =>
          dsimp only
          split
          · exact Or.inl rfl
          · split
            · exact Or.inl rfl
            · exact Or.inr rfl
  · rintro (_ | q) t
    · exact Or.inl rfl
    · simp only [ListCommands, exclusiveOutcome]
      split
      · exact Or.inl rfl
      · split
        · exact Or.inl rfl
        · cases t with
          | doFailure => exact Or.inl rfl
          | readFailure s => exact Or.inl rfl
          | decodeFailure s => exact Or.inl rfl
          | ok s resp =>
            dsimp only
            split
            · exact Or.inl rfl
            · exact Or.inr rfl
  · rintro (_ | q) t
    · exact Or.inl rfl
    · simp only [GetAggregationByTime, exclusiveOutcome]
      split
      · exact Or.inl rfl
      · cases t with
        | doFailure => exact Or.inl rfl
        | readFailure s => exact Or.inl rfl
        | decodeFailure s => exact Or.inl rfl
        | ok s resp =>
          dsimp only
          split
          · exact Or.inl rfl
          · exact Or.inr rfl
  · rintro (_ | q) t
    · exact Or.inl rfl
    · simp only [GetHealthStatus, exclusiveOutcome]
      split
      · exact Or.inl rfl
      · cases t with
        | doFailure => exact Or.inl rfl
        | readFailure s => exact Or.inl rfl
        | decodeFailure s => exact Or.inl rfl
        | ok s resp =>
          dsimp only
          split
          · exact Or.inl rfl
          · split
            · exact Or.inl rfl
            · exact Or.inr rfl
  · intro r status resp hv hfail
    have hcond : status ≠ 200 ∨ resp.Success = false := hfail
    simp only [GetData, hv]
    rw [if_pos hcond]
    exact ⟨rfl, rfl⟩

/-- Witness for C7 amended: concrete `GetData` failure carrying both a
response record and an error. -/
theorem C7_witness :
    (GetData (some ⟨"v", ["n1"], 1, 2, 0, "asc"⟩)
        (.ok 200 ⟨false, "gone", "data::variablenotfound", "v", 0, []⟩)).result =
      some ⟨false, "gone", "data::variablenotfound", "v", 0, []⟩ ∧
    (GetData (some ⟨"v", ["n1"], 1, 2, 0, "asc"⟩)
        (.ok 200 ⟨false, "gone", "data::variablenotfound", "v", 0, []⟩)).err =
      some (GetError "data::variablenotfound" "gone") :=
  C7_exclusive_amended.2.2.2.2.2.2.2 _ 200 _ (by decide) (Or.inr rfl)



/-- C10: on every successful call (validation passed, HTTP status in
[200, 300), envelope success flag true), `GetHealthStatus` returns a fresh
response holding only the per-node data map; the envelope fields inherited
from the base response stay at their zero values, so the returned record
reports Success as false even though the call succeeded. -/
theorem C10_health_success_zero_envelope (r : HealthStatusRequest) (status : Nat)
    (resp : HealthStatusResponse) (hv : GetHealthStatusValidate (some r) = none)
    (h1 : 200 ≤ status) (h2 : status < 300) (hs : resp.base.Success = true) :
    GetHealthStatus (some r) (.ok status resp) =
      ⟨some ⟨⟨false, "", ""⟩, resp.Data⟩, none, 1, some r⟩ := by
  have hst : ¬(status < 200 ∨ 300 ≤ status) := by omega
  have hflag : ¬(resp.base.Success = false) := by simp [hs]
  simp only [GetHealthStatus, hv]
  rw [if_neg hst, if_neg hflag]

/-- Witness for C10 at a concrete successful call. -/
theorem C10_witness :
    GetHealthStatus (some ⟨["n1"], 60⟩) (.ok 200 ⟨⟨true, "", ""⟩, [("n1", ⟨true, 5⟩)]⟩) =
      ⟨some ⟨⟨false, "", ""⟩, [("n1", ⟨true, 5⟩)]⟩, none, 1, some ⟨["n1"], 60⟩⟩ :=
  C10_health_success_zero_envelope _ 200 _ (by decide) (by decide) (by decide) rfl


end Anedya
